import Mathlib

/-!
Shallow embedding of the OXOKE activation server's licensing logic.

Three source variants are embedded:
* `V3` — the capacity-modality server (`src/server.js`, first document,
  v3.0): hashed browser-id strings, a `max_browsers` capacity, and a
  migration step collapsing legacy object entries to strings.
* `V2` — the capacity-modality server with hardware fingerprints
  (`src/unnamed/part_000`, second document, v2.0): bindings carry
  `bid` / `hwid`, with reinstall rebinding.
* `PC` — the PC-locked server with free trials (`src/unnamed/part_000`,
  first document, v4.0): exclusive `locked_pc` binding, expiry set at first
  activation, and one-shot trial issuance per hashed PC fingerprint.

Conventions: timestamps are naturals (milliseconds since the epoch, as JS
`Date.getTime()` yields); device identifiers are taken post-`hashId` as
opaque strings where the handler hashes them itself, and the digest function
is passed as an explicit argument where the raw id is needed; a handler path
that does not call `saveData` returns its input record unchanged, mirroring
that in-memory mutation without `saveData` is never persisted; a missing
request field and an empty-string field are both JS-falsy and are modelled
as the empty string (or `none` for optional fields).
-/

/-- Milliseconds in one day; `addDays(n)` in the source is `now + n * dayMs`. -/
def dayMs : Nat := 86400000

/-- Strip leading and trailing whitespace from a character list, as JS
`String.prototype.trim` does on the underlying characters. -/
def trimChars (l : List Char) : List Char :=
  ((l.dropWhile Char.isWhitespace).reverse.dropWhile Char.isWhitespace).reverse

/-- JS `code.toUpperCase().trim()` (ASCII case mapping and whitespace
trimming suffice for the key alphabet the server uses). -/
def normalizeCode (s : String) : String := String.mk (trimChars (s.data.map Char.toUpper))

/-- JS `nc.startsWith('TRIAL-')`: the lexical form of a trial key. -/
def hasTrialForm (s : String) : Bool := "TRIAL-".data.isPrefixOf s.data

/-- Association-list write for a JSON-object store (`data.activation_codes`,
`trials.used_pcs`): replace the first binding of the key, or append it. -/
def storeSet {α : Type} : List (String × α) → String → α → List (String × α)
| [], k, v => [(k, v)]
| (k', v') :: t, k, v => if k' = k then (k, v) :: t else (k', v') :: storeSet t k v

/-- A stored browser entry of the v3.0 capacity server: either a plain
hashed browser-id string or a legacy object whose `bid` field may be
absent. -/
inductive V3Entry : Type
| str (s : String)
| obj (bid : Option String)
deriving DecidableEq

/-- The migration step of v3.0 activate: a legacy object with a truthy `bid`
collapses to that string; anything else (including an object with an empty,
JS-falsy `bid`) is kept as it is. -/
def migrateV3 : V3Entry → V3Entry
| V3Entry.obj (some b) => if b = "" then V3Entry.obj (some b) else V3Entry.str b
| e => e

/-- JS `browsers.includes(hashedBrowser)`: strict equality against a string
only ever matches string entries, never a remaining object. -/
def entryMatches (hb : String) : V3Entry → Bool
| V3Entry.str s => s == hb
| V3Entry.obj _ => false

/-- A license record of the v3.0 capacity server.  The JSON store file is
shared across the server's evolutionary variants, so a stored record may
carry an `expiry` field; the v3.0 code never reads it.  An absent `browsers`
field is normalised to `[]` by every handler, so it is modelled as the empty
list. -/
structure V3Rec : Type where
  active : Bool
  browsers : List V3Entry
  max_browsers : Nat
  expiry : Option Nat := none
  created : Nat := 0
  last_activated : Option Nat := none
deriving DecidableEq

/-- Outcome of v3.0 `POST /api/activate` (HTTP statuses in comments). -/
inductive V3Resp : Type
| missing                      -- 400, missing code or browser_id
| notFound                     -- 404, invalid activation code
| disabled                     -- 403, code disabled
| already (used max : Nat)     -- 200, already activated on this browser
| limit (max : Nat)            -- 403, maximum browser limit reached
| activated (used max : Nat)   -- 200, activation successful
deriving DecidableEq

/-- v3.0 `POST /api/activate`, per-record core (after the missing-field
guard and code normalisation): given the looked-up record and the hashed
browser id, returns the response and the record as persisted (the input
record on every path without `saveData`). -/
def v3Activate (cd? : Option V3Rec) (hb : String) (now : Nat) : V3Resp × Option V3Rec :=
  match cd? with
  | none => (V3Resp.notFound, none)
  | some cd =>
    if cd.active = false then (V3Resp.disabled, some cd)
    else
      let bs := cd.browsers.map migrateV3
      if bs.any (entryMatches hb) then (V3Resp.already bs.length cd.max_browsers, some cd)
      else if cd.max_browsers ≤ bs.length then (V3Resp.limit cd.max_browsers, some cd)
      else
        let bs' := bs ++ [V3Entry.str hb]
        (V3Resp.activated bs'.length cd.max_browsers,
          some { cd with browsers := bs', last_activated := some now })

/-- The record state reached after a sequence of v3.0 activate calls; each
request is a hashed browser id together with its arrival time. -/
def v3Run (cd : V3Rec) (reqs : List (String × Nat)) : V3Rec :=
  reqs.foldl (fun c r => ((v3Activate (some c) r.1 r.2).2).getD c) cd

/-- Response body of v3.0 `POST /api/verify`: always HTTP 200 with a `valid`
flag; occupancy metadata is present only when the code resolves to an
active record. -/
structure V3VerifyResp : Type where
  status : Nat
  valid : Bool
  browsers_used : Option Nat := none
  max_browsers : Option Nat := none
deriving DecidableEq

/-- v3.0 `POST /api/verify`, full handler: `hashId` is the injected digest
function; returns the response and the (never written) store. -/
def v3Verify (hashId : String → String) (store : List (String × V3Rec))
    (code browserId : String) : V3VerifyResp × List (String × V3Rec) :=
  if code = "" ∨ browserId = "" then ({ status := 200, valid := false }, store)
  else
    match List.lookup (normalizeCode code) store with
    | none => ({ status := 200, valid := false }, store)
    | some cd =>
      if cd.active = false then ({ status := 200, valid := false }, store)
      else
        let bs := cd.browsers.map migrateV3
        ({ status := 200, valid := bs.any (entryMatches (hashId browserId)),
           browsers_used := some bs.length, max_browsers := some cd.max_browsers }, store)

/-- Outcome of an admin mutation endpoint. -/
inductive AdminResp : Type
| notFound
| ok
deriving DecidableEq

/-- v3.0 `POST /admin/disable-code`, per-record core: sets `active := false`
and nothing else (bindings are kept). -/
def v3DisableCode (cd? : Option V3Rec) : AdminResp × Option V3Rec :=
  match cd? with
  | none => (AdminResp.notFound, none)
  | some cd => (AdminResp.ok, some { cd with active := false })

/-- v3.0 `POST /admin/reset-browsers`, per-record core: empties `browsers`
and nothing else (`active` is untouched). -/
def v3ResetBrowsers (cd? : Option V3Rec) : AdminResp × Option V3Rec :=
  match cd? with
  | none => (AdminResp.notFound, none)
  | some cd => (AdminResp.ok, some { cd with browsers := [] })

/-- A device binding of the v2.0 capacity server, in migrated (object) form:
hashed browser id `bid`, hashed hardware id `hwid` (absent on hand-written
records, so optional), and the stamps the server writes. -/
structure V2Binding : Type where
  bid : String
  hwid : Option String := none
  activated_at : Option Nat := none
  reinstalled_at : Option Nat := none
deriving DecidableEq

/-- A stored browsers entry of the v2.0 server: a legacy plain string or a
binding object. -/
inductive V2Entry : Type
| str (s : String)
| obj (b : V2Binding)
deriving DecidableEq

/-- The migration step of v2.0: a legacy string `b` becomes the object
`{ bid: b, hwid: b }`. -/
def migrateV2 : V2Entry → V2Binding
| V2Entry.str s => { bid := s, hwid := some s }
| V2Entry.obj b => b

/-- A license record of the v2.0 capacity server (same shared JSON store, so
an `expiry` field may be present; the v2.0 code never reads it). -/
structure V2Rec : Type where
  active : Bool
  browsers : List V2Entry
  max_browsers : Nat
  expiry : Option Nat := none
  created : Nat := 0
  last_activated : Option Nat := none
deriving DecidableEq

/-- Outcome of v2.0 `POST /api/activate`. -/
inductive V2Resp : Type
| missing                      -- 400
| notFound                     -- 404
| disabled                     -- 403
| already (used max : Nat)     -- 200, already activated on this browser
| rebound (used max : Nat)     -- 200, reinstall detected
| limit (max : Nat)            -- 403, maximum browser limit reached
| activated (used max : Nat)   -- 200, activation successful
deriving DecidableEq

/-- JS `hardware_id ? hashId(hardware_id) : hashedBrowser`: the effective
hashed hardware id, defaulting to the hashed browser id when the raw
hardware id is absent (or empty — both are falsy). -/
def effHardware (hb : String) (hh? : Option String) : String := hh?.getD hb

/-- `browsers.find(b => b.hwid === hashedHardware)` followed by the in-place
rewrite of the found binding: the first binding whose `hwid` equals `hh` is
given the new `bid` and a `reinstalled_at` stamp; everything else is kept. -/
def rebindFirst (hb hh : String) (now : Nat) : List V2Binding → List V2Binding
| [] => []
| b :: t =>
  if b.hwid == some hh then
    { b with bid := hb, hwid := some hh, reinstalled_at := some now } :: t
  else b :: rebindFirst hb hh now t

/-- v2.0 `POST /api/activate`, per-record core: exact browser match, then
hardware-fingerprint rebind, then the capacity check, then append. -/
def v2Activate (cd? : Option V2Rec) (hb hh : String) (now : Nat) : V2Resp × Option V2Rec :=
  match cd? with
  | none => (V2Resp.notFound, none)
  | some cd =>
    if cd.active = false then (V2Resp.disabled, some cd)
    else
      let bs := cd.browsers.map migrateV2
      if bs.any (fun b => b.bid == hb) then (V2Resp.already bs.length cd.max_browsers, some cd)
      else if bs.any (fun b => b.hwid == some hh) then
        let bs' := rebindFirst hb hh now bs
        (V2Resp.rebound bs'.length cd.max_browsers,
          some { cd with browsers := bs'.map V2Entry.obj, last_activated := some now })
      else if cd.max_browsers ≤ bs.length then (V2Resp.limit cd.max_browsers, some cd)
      else
        let bs' := bs ++ [{ bid := hb, hwid := some hh, activated_at := some now }]
        (V2Resp.activated bs'.length cd.max_browsers,
          some { cd with browsers := bs'.map V2Entry.obj, last_activated := some now })

/-- The record state reached after a sequence of v2.0 activate calls; each
request is a hashed browser id, an effective hashed hardware id, and its
arrival time. -/
def v2Run (cd : V2Rec) (reqs : List (String × String × Nat)) : V2Rec :=
  reqs.foldl (fun c r => ((v2Activate (some c) r.1 r.2.1 r.2.2).2).getD c) cd

/-- A license record of the PC-locked v4.0 server. -/
structure PCRec : Type where
  active : Bool
  locked_pc : Option String
  expiry : Option Nat
  custom_expiry_days : Nat := 30
  activated_at : Option Nat := none
  created : Nat := 0
deriving DecidableEq

/-- JS `cd.expiry && new Date(cd.expiry).getTime() < Date.now()`: strictly
past expiry; a `null` expiry is falsy and never counts as expired. -/
def pcExpired (cd : PCRec) (now : Nat) : Bool :=
  match cd.expiry with
  | some e => decide (e < now)
  | none => false

/-- Outcome of PC-locked v4.0 `POST /api/activate`. -/
inductive PCResp : Type
| missing                      -- 400
| notFound                     -- 404
| disabled                     -- 403
| expired                      -- 403, key has expired
| activated (expiry : Nat)     -- 200, first binding of this key
| already (expiry : Option Nat)  -- 200, same PC again
| mismatch                     -- 403, already activated on another PC
deriving DecidableEq

/-- PC-locked v4.0 `POST /api/activate`, per-record core.  Note that the
expiry written on the first binding is the hard-coded `addDays(30)`; the
record's `custom_expiry_days` field is not consulted. -/
def pcActivate (cd? : Option PCRec) (hp : String) (now : Nat) : PCResp × Option PCRec :=
  match cd? with
  | none => (PCResp.notFound, none)
  | some cd =>
    if cd.active = false then (PCResp.disabled, some cd)
    else if pcExpired cd now then (PCResp.expired, some cd)
    else
      match cd.locked_pc with
      | none =>
        let e := match cd.expiry with
          | none => now + 30 * dayMs
          | some e0 => e0
        (PCResp.activated e,
          some { cd with locked_pc := some hp, activated_at := some now, expiry := some e })
      | some lp =>
        if lp = hp then (PCResp.already cd.expiry, some cd)
        else (PCResp.mismatch, some cd)

/-- A trial record, stored per hashed PC fingerprint. -/
structure TrialRec : Type where
  key : String
  expiry : Nat
  created : Nat
deriving DecidableEq

/-- Outcome of `POST /api/get-trial`. -/
inductive TrialResp : Type
| missing                                   -- 400
| reactivated (key : String) (expiry : Nat)   -- 200, existing trial still running
| exhausted                                 -- 403, free trial already used
| activated (key : String) (expiry : Nat)     -- 200, fresh 24-hour trial
deriving DecidableEq

/-- `POST /api/get-trial`, per-fingerprint core: `prev` is the stored record
for the caller's hashed PC fingerprint, `newKey` the value the random key
generator would produce on this call.  Returns the response and the stored
record after the call. -/
def getTrial (prev : Option TrialRec) (newKey : String) (now : Nat) :
    TrialResp × Option TrialRec :=
  match prev with
  | some t =>
    if now < t.expiry then (TrialResp.reactivated t.key t.expiry, some t)
    else (TrialResp.exhausted, some t)
  | none =>
    (TrialResp.activated newKey (now + dayMs),
      some { key := newKey, expiry := now + dayMs, created := now })

/-- Response body of PC-locked v4.0 `POST /api/verify`: always HTTP 200. -/
structure PCVerifyResp : Type where
  status : Nat
  valid : Bool
  expiry : Option Nat := none
  kind : Option String := none   -- the response's `type` field: trial or monthly
deriving DecidableEq

/-- PC-locked v4.0 `POST /api/verify`, full handler over both stores: trial
keys resolve through the trial store under the caller's hashed fingerprint,
anything else through the license store under the normalised code. -/
def pcVerify (hashId : String → String) (codes : List (String × PCRec))
    (trials : List (String × TrialRec)) (code pc : String) (now : Nat) :
    PCVerifyResp × (List (String × PCRec) × List (String × TrialRec)) :=
  if code = "" ∨ pc = "" then ({ status := 200, valid := false }, (codes, trials))
  else if hasTrialForm (normalizeCode code) then
    match List.lookup (hashId pc) trials with
    | none => ({ status := 200, valid := false }, (codes, trials))
    | some e =>
      if e.key = normalizeCode code then
        ({ status := 200, valid := decide (now < e.expiry), expiry := some e.expiry,
           kind := some "trial" }, (codes, trials))
      else ({ status := 200, valid := false }, (codes, trials))
  else
    match List.lookup (normalizeCode code) codes with
    | none => ({ status := 200, valid := false }, (codes, trials))
    | some cd =>
      if cd.active = false then ({ status := 200, valid := false }, (codes, trials))
      else if cd.locked_pc == some (hashId pc) then
        ({ status := 200,
           valid := match cd.expiry with
             | none => true
             | some e => decide (now < e),
           expiry := cd.expiry, kind := some "monthly" }, (codes, trials))
      else ({ status := 200, valid := false }, (codes, trials))

/-- Outcome of PC-locked v4.0 `POST /admin/add-code`. -/
inductive AddResp : Type
| badRequest
| conflict
| ok (code : String)
deriving DecidableEq

/-- PC-locked v4.0 `POST /admin/add-code`: creates a fresh record with no PC
lock, `expiry = null` (to be set at first activation) and the configured
`custom_expiry_days` (`custom_expiry_days || 30`: an absent or zero value
falls back to 30). -/
def pcAddCode (store : List (String × PCRec)) (code : String)
    (customDays : Option Nat) (now : Nat) : AddResp × List (String × PCRec) :=
  if code = "" then (AddResp.badRequest, store)
  else
    match List.lookup (normalizeCode code) store with
    | some _ => (AddResp.conflict, store)
    | none =>
      let d := match customDays with
        | some n => if n = 0 then 30 else n
        | none => 30
      (AddResp.ok (normalizeCode code),
        storeSet store (normalizeCode code)
          { active := true, locked_pc := none, expiry := none,
            custom_expiry_days := d, created := now })

/-- PC-locked v4.0 `POST /admin/disable-code`, per-record core: sets
`active := false` and nothing else. -/
def pcDisableCode (cd? : Option PCRec) : AdminResp × Option PCRec :=
  match cd? with
  | none => (AdminResp.notFound, none)
  | some cd => (AdminResp.ok, some { cd with active := false })

/-- PC-locked v4.0 `POST /admin/reset-code`, per-record core: clears the PC
lock, the expiry and the activation stamp, leaving `active` untouched. -/
def pcResetCode (cd? : Option PCRec) : AdminResp × Option PCRec :=
  match cd? with
  | none => (AdminResp.notFound, none)
  | some cd =>
    (AdminResp.ok, some { cd with locked_pc := none, expiry := none, activated_at := none })

/-- A capacity-modality record that carries an expiry timestamp in the past
(the shared `data.json` schema permits the field; the capacity code ignores
it): used to probe the claimed universal expiry check. -/
def c2CapRec : V3Rec := { active := true, browsers := [], max_browsers := 3, expiry := some 0 }

/-- An exclusive-lock record, active and bound to PC `"A"`, whose expiry lies
in the past: used to probe re-activation of an already-bound device. -/
def c4LockedRec : PCRec := { active := true, locked_pc := some "A", expiry := some 50 }

theorem rebindFirst_length (hb hh : String) (now : Nat) :
    ∀ l : List V2Binding, (rebindFirst hb hh now l).length = l.length := by
  intro l
  induction l with
  | nil => rfl
  | cons b t ih =>
    by_cases h : (b.hwid == some hh) = true
    · simp [rebindFirst, h]
    · simp [rebindFirst, h, ih]

theorem rebindFirst_hit (hb hh : String) (now : Nat) :
    ∀ l : List V2Binding, l.any (fun b => b.hwid == some hh) = true →
    ∃ b ∈ rebindFirst hb hh now l, b.bid = hb ∧ b.hwid = some hh := by
  intro l
  induction l with
  | nil => intro h; simp at h
  | cons b t ih =>
    intro h
    by_cases h0 : (b.hwid == some hh) = true
    · refine ⟨{ b with bid := hb, hwid := some hh, reinstalled_at := some now }, ?_, rfl, rfl⟩
      simp [rebindFirst, h0]
    · have ht : t.any (fun x => x.hwid == some hh) = true := by
        simp only [List.any_cons, h0, Bool.false_or] at h
        exact h
      obtain ⟨x, hx, hbid, hhw⟩ := ih ht
      have hr : rebindFirst hb hh now (b :: t) = b :: rebindFirst hb hh now t := by
        simp [rebindFirst, h0]
      rw [hr]
      exact ⟨x, List.mem_cons_of_mem _ hx, hbid, hhw⟩

theorem v3Activate_split (cd : V3Rec) (hb : String) (now : Nat) :
    ((v3Activate (some cd) hb now).2 = some cd ∧
      ∀ u m : Nat, (v3Activate (some cd) hb now).1 ≠ V3Resp.activated u m) ∨
    (cd.browsers.length < cd.max_browsers ∧
      v3Activate (some cd) hb now =
        (V3Resp.activated (cd.browsers.length + 1) cd.max_browsers,
          some { cd with browsers := cd.browsers.map migrateV3 ++ [V3Entry.str hb],
                         last_activated := some now })) := by
  by_cases h1 : cd.active = false
  · left; simp [v3Activate, h1]
  · by_cases h2 : (cd.browsers.map migrateV3).any (entryMatches hb) = true
    · left; simp [v3Activate, h1, h2]
    · by_cases h3 : cd.max_browsers ≤ cd.browsers.length
      · left; simp [v3Activate, h1, h2, h3, List.length_map]
      · right
        refine ⟨by omega, ?_⟩
        simp [v3Activate, h1, h2, h3, List.length_map]

theorem v3_step_inv (cd : V3Rec) (hb : String) (now : Nat)
    (h : cd.browsers.length ≤ cd.max_browsers) :
    (((v3Activate (some cd) hb now).2).getD cd).browsers.length ≤
      (((v3Activate (some cd) hb now).2).getD cd).max_browsers ∧
    (((v3Activate (some cd) hb now).2).getD cd).max_browsers = cd.max_browsers := by
  rcases v3Activate_split cd hb now with ⟨hs, _⟩ | ⟨hlt, heq⟩
  · rw [hs]; exact ⟨h, rfl⟩
  · have hs : (v3Activate (some cd) hb now).2 =
        some { cd with browsers := cd.browsers.map migrateV3 ++ [V3Entry.str hb],
                       last_activated := some now } := by rw [heq]
    rw [hs]
    refine ⟨?_, rfl⟩
    simp only [Option.getD_some, List.length_append, List.length_map, List.length_cons,
      List.length_nil]
    omega

theorem v3Run_inv (reqs : List (String × Nat)) :
    ∀ cd : V3Rec, cd.browsers.length ≤ cd.max_browsers →
    (v3Run cd reqs).browsers.length ≤ (v3Run cd reqs).max_browsers ∧
    (v3Run cd reqs).max_browsers = cd.max_browsers := by
  induction reqs with
  | nil => intro cd h; exact ⟨h, rfl⟩
  | cons r t ih =>
    intro cd h
    have hstep := v3_step_inv cd r.1 r.2 h
    have hrun : v3Run cd (r :: t) =
        v3Run (((v3Activate (some cd) r.1 r.2).2).getD cd) t := rfl
    rw [hrun]
    obtain ⟨h1, h2⟩ := ih _ hstep.1
    exact ⟨h1, h2.trans hstep.2⟩

theorem v2Activate_split (cd : V2Rec) (hb hh : String) (now : Nat) :
    ((v2Activate (some cd) hb hh now).2 = some cd ∧
      ∀ u m : Nat, (v2Activate (some cd) hb hh now).1 ≠ V2Resp.activated u m) ∨
    (v2Activate (some cd) hb hh now =
        (V2Resp.rebound cd.browsers.length cd.max_browsers,
          some { cd with
                 browsers := (rebindFirst hb hh now (cd.browsers.map migrateV2)).map V2Entry.obj,
                 last_activated := some now })) ∨
    (cd.browsers.length < cd.max_browsers ∧
      v2Activate (some cd) hb hh now =
        (V2Resp.activated (cd.browsers.length + 1) cd.max_browsers,
          some { cd with
                 browsers := (cd.browsers.map migrateV2 ++
                   [({ bid := hb, hwid := some hh, activated_at := some now } : V2Binding)]).map
                     V2Entry.obj,
                 last_activated := some now })) := by
  by_cases h1 : cd.active = false
  · left; simp [v2Activate, h1]
  · by_cases h2 : (cd.browsers.map migrateV2).any (fun b => b.bid == hb) = true
    · left; simp [v2Activate, h1, h2]
    · by_cases h3 : (cd.browsers.map migrateV2).any (fun b => b.hwid == some hh) = true
      · right; left
        simp [v2Activate, h1, h2, h3, rebindFirst_length, List.length_map]
      · by_cases h4 : cd.max_browsers ≤ cd.browsers.length
        · left; simp [v2Activate, h1, h2, h3, h4, List.length_map]
        · right; right
          refine ⟨by omega, ?_⟩
          simp [v2Activate, h1, h2, h3, h4, List.length_append, List.length_map]

theorem v2_step_inv (cd : V2Rec) (hb hh : String) (now : Nat)
    (h : cd.browsers.length ≤ cd.max_browsers) :
    (((v2Activate (some cd) hb hh now).2).getD cd).browsers.length ≤
      (((v2Activate (some cd) hb hh now).2).getD cd).max_browsers ∧
    (((v2Activate (some cd) hb hh now).2).getD cd).max_browsers = cd.max_browsers := by
  rcases v2Activate_split cd hb hh now with ⟨hs, _⟩ | heq | ⟨hlt, heq⟩
  · rw [hs]; exact ⟨h, rfl⟩
  · have hs : (v2Activate (some cd) hb hh now).2 =
        some { cd with
               browsers := (rebindFirst hb hh now (cd.browsers.map migrateV2)).map V2Entry.obj,
               last_activated := some now } := by rw [heq]
    rw [hs]
    refine ⟨?_, rfl⟩
    simp only [Option.getD_some, List.length_map, rebindFirst_length]
    exact h
  · have hs : (v2Activate (some cd) hb hh now).2 =
        some { cd with
               browsers := (cd.browsers.map migrateV2 ++
                 [({ bid := hb, hwid := some hh, activated_at := some now } : V2Binding)]).map
                   V2Entry.obj,
               last_activated := some now } := by rw [heq]
    rw [hs]
    refine ⟨?_, rfl⟩
    simp only [Option.getD_some, List.length_map, List.length_append, List.length_cons,
      List.length_nil]
    omega

theorem v2Run_inv (reqs : List (String × String × Nat)) :
    ∀ cd : V2Rec, cd.browsers.length ≤ cd.max_browsers →
    (v2Run cd reqs).browsers.length ≤ (v2Run cd reqs).max_browsers ∧
    (v2Run cd reqs).max_browsers = cd.max_browsers := by
  induction reqs with
  | nil => intro cd h; exact ⟨h, rfl⟩
  | cons r t ih =>
    intro cd h
    have hstep := v2_step_inv cd r.1 r.2.1 r.2.2 h
    have hrun : v2Run cd (r :: t) =
        v2Run (((v2Activate (some cd) r.1 r.2.1 r.2.2).2).getD cd) t := rfl
    rw [hrun]
    obtain ⟨h1, h2⟩ := ih _ hstep.1
    exact ⟨h1, h2.trans hstep.2⟩

/-- C1: for every capacity-modality license record starting with
`browsers.length ≤ max_browsers`, any sequence of Activate calls preserves
`browsers.length ≤ max_browsers` (in both the v3.0 and the v2.0 capacity
variants, whose `max_browsers` is never modified by Activate); a single
Activate appends a binding (the `activated` outcome) only when the current
length is strictly below `max_browsers`, and then grows it by exactly one,
while every other outcome leaves the length unchanged. -/
theorem oxoke_c1 :
    (∀ (cd : V3Rec) (reqs : List (String × Nat)),
        cd.browsers.length ≤ cd.max_browsers →
        (v3Run cd reqs).browsers.length ≤ (v3Run cd reqs).max_browsers ∧
        (v3Run cd reqs).max_browsers = cd.max_browsers) ∧
    (∀ (cd : V3Rec) (hb : String) (now u m : Nat),
        (v3Activate (some cd) hb now).1 = V3Resp.activated u m →
        cd.browsers.length < cd.max_browsers ∧
        (((v3Activate (some cd) hb now).2).getD cd).browsers.length =
          cd.browsers.length + 1) ∧
    (∀ (cd : V3Rec) (hb : String) (now : Nat),
        (∀ u m : Nat, (v3Activate (some cd) hb now).1 ≠ V3Resp.activated u m) →
        (((v3Activate (some cd) hb now).2).getD cd).browsers.length =
          cd.browsers.length) ∧
    (∀ (cd : V2Rec) (reqs : List (String × String × Nat)),
        cd.browsers.length ≤ cd.max_browsers →
        (v2Run cd reqs).browsers.length ≤ (v2Run cd reqs).max_browsers ∧
        (v2Run cd reqs).max_browsers = cd.max_browsers) ∧
    (∀ (cd : V2Rec) (hb hh : String) (now u m : Nat),
        (v2Activate (some cd) hb hh now).1 = V2Resp.activated u m →
        cd.browsers.length < cd.max_browsers ∧
        (((v2Activate (some cd) hb hh now).2).getD cd).browsers.length =
          cd.browsers.length + 1) ∧
    (∀ (cd : V2Rec) (hb hh : String) (now : Nat),
        (∀ u m : Nat, (v2Activate (some cd) hb hh now).1 ≠ V2Resp.activated u m) →
        (((v2Activate (some cd) hb hh now).2).getD cd).browsers.length =
          cd.browsers.length) := by
  refine ⟨fun cd reqs h => v3Run_inv reqs cd h, ?_, ?_,
    fun cd reqs h => v2Run_inv reqs cd h, ?_, ?_⟩
  · intro cd hb now u m hres
    rcases v3Activate_split cd hb now with ⟨_, hne⟩ | ⟨hlt, heq⟩
    · exact absurd hres (hne u m)
    · refine ⟨hlt, ?_⟩
      have hs : (v3Activate (some cd) hb now).2 =
          some { cd with browsers := cd.browsers.map migrateV3 ++ [V3Entry.str hb],
                         last_activated := some now } := by rw [heq]
      rw [hs]
      simp [List.length_map]
  · intro cd hb now hne
    rcases v3Activate_split cd hb now with ⟨hs, _⟩ | ⟨_, heq⟩
    · rw [hs]; rfl
    · exact absurd (by rw [heq]) (hne (cd.browsers.length + 1) cd.max_browsers)
  · intro cd hb hh now u m hres
    rcases v2Activate_split cd hb hh now with ⟨_, hne⟩ | heq | ⟨hlt, heq⟩
    · exact absurd hres (hne u m)
    · rw [heq] at hres
      simp at hres
    · refine ⟨hlt, ?_⟩
      have hs : (v2Activate (some cd) hb hh now).2 =
          some { cd with
                 browsers := (cd.browsers.map migrateV2 ++
                   [({ bid := hb, hwid := some hh, activated_at := some now } : V2Binding)]).map
                     V2Entry.obj,
                 last_activated := some now } := by rw [heq]
      rw [hs]
      simp [List.length_map]
  · intro cd hb hh now hne
    rcases v2Activate_split cd hb hh now with ⟨hs, _⟩ | heq | ⟨_, heq⟩
    · rw [hs]; rfl
    · have hs : (v2Activate (some cd) hb hh now).2 =
          some { cd with
                 browsers := (rebindFirst hb hh now (cd.browsers.map migrateV2)).map V2Entry.obj,
                 last_activated := some now } := by rw [heq]
      rw [hs]
      simp [List.length_map, rebindFirst_length]
    · exact absurd (by rw [heq]) (hne (cd.browsers.length + 1) cd.max_browsers)

/-- Witness for `oxoke_c1`: a two-slot v3.0 record keeps its capacity bound
across a concrete burst of three activation requests. -/
theorem oxoke_c1_witness :
    ({ active := true, browsers := [], max_browsers := 2 } : V3Rec).browsers.length ≤
      ({ active := true, browsers := [], max_browsers := 2 } : V3Rec).max_browsers ∧
    ((v3Run { active := true, browsers := [], max_browsers := 2 }
        [("A", 1), ("B", 2), ("C", 3)]).browsers.length ≤
      (v3Run { active := true, browsers := [], max_browsers := 2 }
        [("A", 1), ("B", 2), ("C", 3)]).max_browsers ∧
      (v3Run { active := true, browsers := [], max_browsers := 2 }
        [("A", 1), ("B", 2), ("C", 3)]).max_browsers =
        ({ active := true, browsers := [], max_browsers := 2 } : V3Rec).max_browsers) :=
  ⟨by decide, oxoke_c1.1 { active := true, browsers := [], max_browsers := 2 }
      [("A", 1), ("B", 2), ("C", 3)] (by decide)⟩

/-- C2 counterexample: a capacity-modality record that exists, is active and
carries an expiry strictly in the past is nevertheless activated (and
mutated) by the capacity-variant Activate, instead of failing with the
claimed `Expired`: the capacity code performs no expiry check. -/
theorem oxoke_c2_cex :
    c2CapRec.active = true ∧ c2CapRec.expiry = some 0 ∧ (0 : Nat) < 100 ∧
    (v3Activate (some c2CapRec) "B" 100).1 = V3Resp.activated 1 3 ∧
    (v3Activate (some c2CapRec) "B" 100).2 ≠ some c2CapRec := by decide

/-- C2 (amended): for every Activate call where the record for the
normalized code exists, is active, and has an expiry timestamp strictly in
the past, the PC-locked (exclusive-lock) variant fails with `Expired` and
leaves the record unchanged; the capacity-modality variants perform no
expiry check at all. -/
theorem oxoke_c2_amended (cd : PCRec) (hp : String) (now e : Nat)
    (hact : cd.active = true) (hexp : cd.expiry = some e) (hlt : e < now) :
    pcActivate (some cd) hp now = (PCResp.expired, some cd) := by
  have hx : pcExpired cd now = true := by simp [pcExpired, hexp, hlt]
  simp [pcActivate, hact, hx]

/-- Witness for `oxoke_c2_amended`: an active PC-locked record whose expiry
(50) has passed by time 100 is refused as expired and left untouched. -/
theorem oxoke_c2_amended_witness :
    ({ active := true, locked_pc := some "A", expiry := some 50 } : PCRec).active = true ∧
    ({ active := true, locked_pc := some "A", expiry := some 50 } : PCRec).expiry = some 50 ∧
    (50 : Nat) < 100 ∧
    pcActivate (some { active := true, locked_pc := some "A", expiry := some 50 }) "B" 100 =
      (PCResp.expired, some { active := true, locked_pc := some "A", expiry := some 50 }) :=
  ⟨rfl, rfl, by decide,
    oxoke_c2_amended { active := true, locked_pc := some "A", expiry := some 50 }
      "B" 100 50 rfl rfl (by decide)⟩

/-- C3: on an active v2.0 capacity record, an Activate whose hashed browser
id is not bound but whose effective hashed hardware id matches some existing
binding's `hwid` succeeds as a rebind: the first matching binding's `bid` is
rewritten to the new browser id, the number of bindings is unchanged, and no
capacity condition is consulted (the statement carries no bound on
`browsers.length`, so it holds in particular at full capacity — the
hardware match is decided before the capacity check). -/
theorem oxoke_c3 (cd : V2Rec) (hb hh : String) (now : Nat)
    (hact : cd.active = true)
    (hnb : (cd.browsers.map migrateV2).any (fun b => b.bid == hb) = false)
    (hhw : (cd.browsers.map migrateV2).any (fun b => b.hwid == some hh) = true) :
    v2Activate (some cd) hb hh now =
      (V2Resp.rebound cd.browsers.length cd.max_browsers,
        some { cd with
               browsers := (rebindFirst hb hh now (cd.browsers.map migrateV2)).map V2Entry.obj,
               last_activated := some now }) ∧
    ((rebindFirst hb hh now (cd.browsers.map migrateV2)).map V2Entry.obj).length =
      cd.browsers.length ∧
    ∃ b ∈ rebindFirst hb hh now (cd.browsers.map migrateV2), b.bid = hb ∧ b.hwid = some hh := by
  refine ⟨?_, ?_, rebindFirst_hit hb hh now _ hhw⟩
  · simp [v2Activate, hact, hnb, hhw, rebindFirst_length, List.length_map]
  · simp [rebindFirst_length, List.length_map]

/-- Witness for `oxoke_c3`: a one-slot record already at capacity still
rebinds the reinstalled device instead of rejecting it. -/
theorem oxoke_c3_witness :
    ({ active := true, browsers := [V2Entry.obj { bid := "OLD", hwid := some "HW" }],
       max_browsers := 1 } : V2Rec).active = true ∧
    (({ active := true, browsers := [V2Entry.obj { bid := "OLD", hwid := some "HW" }],
        max_browsers := 1 } : V2Rec).browsers.map migrateV2).any
      (fun b => b.bid == "NEW") = false ∧
    (({ active := true, browsers := [V2Entry.obj { bid := "OLD", hwid := some "HW" }],
        max_browsers := 1 } : V2Rec).browsers.map migrateV2).any
      (fun b => b.hwid == some "HW") = true ∧
    (v2Activate (some { active := true,
                        browsers := [V2Entry.obj { bid := "OLD", hwid := some "HW" }],
                        max_browsers := 1 }) "NEW" "HW" 9).1 = V2Resp.rebound 1 1 :=
  ⟨rfl, by decide, by decide, by
    rw [(oxoke_c3 { active := true,
                    browsers := [V2Entry.obj { bid := "OLD", hwid := some "HW" }],
                    max_browsers := 1 }
        "NEW" "HW" 9 rfl (by decide) (by decide)).1]
    decide⟩

/-- C4 counterexample: an exclusive-lock record that is active and already
bound to fingerprint `"A"` is not re-activated successfully once its expiry
has passed — the Activate from the bound device fails with `Expired`,
because the expiry check precedes the bound-device check; the claim's
stated precondition (`active`) is therefore not sufficient. -/
theorem oxoke_c4_cex :
    c4LockedRec.active = true ∧ c4LockedRec.locked_pc = some "A" ∧
    pcActivate (some c4LockedRec) "A" 100 = (PCResp.expired, some c4LockedRec) ∧
    (pcActivate (some c4LockedRec) "A" 100).1 ≠ PCResp.already c4LockedRec.expiry := by decide

/-- C4 (amended): for every record that is active — and, in the
exclusive-lock modality, not expired — and every fingerprint already bound
to it, Activate with that fingerprint succeeds and performs no state change;
since the persisted record and the response are functions of the unchanged
record alone, repeating the call yields the identical success result each
time. -/
theorem oxoke_c4_amended :
    (∀ (cd : V3Rec) (hb : String) (now : Nat),
        cd.active = true →
        (cd.browsers.map migrateV3).any (entryMatches hb) = true →
        v3Activate (some cd) hb now =
          (V3Resp.already cd.browsers.length cd.max_browsers, some cd)) ∧
    (∀ (cd : PCRec) (hp : String) (now : Nat),
        cd.active = true → pcExpired cd now = false → cd.locked_pc = some hp →
        pcActivate (some cd) hp now = (PCResp.already cd.expiry, some cd)) := by
  constructor
  · intro cd hb now hact hmem
    simp [v3Activate, hact, hmem, List.length_map]
  · intro cd hp now hact hnexp hlock
    simp [pcActivate, hact, hnexp, hlock]

/-- Witness for `oxoke_c4_amended`: concrete already-bound activations in
both modalities return the unchanged record and the `already` result. -/
theorem oxoke_c4_witness :
    (({ active := true, browsers := [V3Entry.str "A"], max_browsers := 1 } : V3Rec).active =
        true ∧
      (({ active := true, browsers := [V3Entry.str "A"], max_browsers := 1 } : V3Rec).browsers.map
          migrateV3).any (entryMatches "A") = true ∧
      v3Activate (some { active := true, browsers := [V3Entry.str "A"], max_browsers := 1 })
          "A" 5 =
        (V3Resp.already 1 1,
          some { active := true, browsers := [V3Entry.str "A"], max_browsers := 1 })) ∧
    (({ active := true, locked_pc := some "P", expiry := some 1000 } : PCRec).active = true ∧
      pcExpired { active := true, locked_pc := some "P", expiry := some 1000 } 5 = false ∧
      pcActivate (some { active := true, locked_pc := some "P", expiry := some 1000 }) "P" 5 =
        (PCResp.already (some 1000),
          some { active := true, locked_pc := some "P", expiry := some 1000 })) :=
  ⟨⟨rfl, by decide,
      oxoke_c4_amended.1 { active := true, browsers := [V3Entry.str "A"], max_browsers := 1 }
        "A" 5 rfl (by decide)⟩,
    ⟨rfl, by decide,
      oxoke_c4_amended.2 { active := true, locked_pc := some "P", expiry := some 1000 }
        "P" 5 rfl (by decide) rfl⟩⟩

/-- C5: the code contradicts the claimed use of the per-record validity
period.  `add-code` with `custom_expiry_days = 7` stores the configured
period on the record, but the first activation stamps the lock and sets the
expiry to the hard-coded `now + 30` days, never consulting
`custom_expiry_days`: at time 1000 the stored expiry is `1000 + 30 * dayMs`,
not the `1000 + 7 * dayMs` the claim requires. -/
theorem oxoke_c5_bug :
    (pcAddCode [] "key7" (some 7) 0).2 =
      [("KEY7",
        { active := true, locked_pc := none, expiry := none, custom_expiry_days := 7,
          created := 0 })] ∧
    pcActivate (List.lookup "KEY7" (pcAddCode [] "key7" (some 7) 0).2) "PC1" 1000 =
      (PCResp.activated (1000 + 30 * dayMs),
        some { active := true, locked_pc := some "PC1", expiry := some (1000 + 30 * dayMs),
               custom_expiry_days := 7, activated_at := some 1000, created := 0 }) ∧
    1000 + 30 * dayMs ≠ 1000 + 7 * dayMs := by decide

/-- C6: an Activate reaching the device-resolution stage of the PC-locked
variant (record exists, is active, is not expired) from a hashed fingerprint
different from the stored `locked_pc` fails with the device-mismatch result
and returns the record completely unchanged — in particular `expiry` and
`locked_pc` keep their prior values. -/
theorem oxoke_c6 (cd : PCRec) (hp lp : String) (now : Nat)
    (hact : cd.active = true) (hnexp : pcExpired cd now = false)
    (hlock : cd.locked_pc = some lp) (hne : lp ≠ hp) :
    pcActivate (some cd) hp now = (PCResp.mismatch, some cd) := by
  simp [pcActivate, hact, hnexp, hlock, hne]

/-- Witness for `oxoke_c6`: a second PC is turned away and the record keeps
its lock and expiry. -/
theorem oxoke_c6_witness :
    ({ active := true, locked_pc := some "A", expiry := some 1000 } : PCRec).active = true ∧
    pcExpired { active := true, locked_pc := some "A", expiry := some 1000 } 5 = false ∧
    ({ active := true, locked_pc := some "A", expiry := some 1000 } : PCRec).locked_pc =
      some "A" ∧
    "A" ≠ "B" ∧
    pcActivate (some { active := true, locked_pc := some "A", expiry := some 1000 }) "B" 5 =
      (PCResp.mismatch, some { active := true, locked_pc := some "A", expiry := some 1000 }) :=
  ⟨rfl, by decide, rfl, by decide,
    oxoke_c6 { active := true, locked_pc := some "A", expiry := some 1000 }
      "B" "A" 5 rfl (by decide) rfl (by decide)⟩

/-- C7: trial issuance per hashed hardware fingerprint is exactly-once.
With no stored TrialRecord, a fresh key with a 24-hour expiry is created and
stored; with a stored record whose expiry is still in the future, the very
same stored key and expiry are returned and the store entry is unchanged;
with a stored record whose expiry is in the past, the call fails with the
trial-exhausted result and the store entry is unchanged, so a second
TrialRecord is never created. -/
theorem oxoke_c7 (k : String) (now : Nat) :
    getTrial none k now =
      (TrialResp.activated k (now + dayMs),
        some { key := k, expiry := now + dayMs, created := now }) ∧
    (∀ t : TrialRec, now < t.expiry →
        getTrial (some t) k now = (TrialResp.reactivated t.key t.expiry, some t)) ∧
    (∀ t : TrialRec, t.expiry < now →
        getTrial (some t) k now = (TrialResp.exhausted, some t)) := by
  refine ⟨rfl, ?_, ?_⟩
  · intro t h
    simp [getTrial, h]
  · intro t h
    have hn : ¬ now < t.expiry := by omega
    simp [getTrial, hn]

/-- Witness for `oxoke_c7`: a still-running trial (expiry 10, now 5) is
re-issued with the identical stored key and expiry. -/
theorem oxoke_c7_witness :
    (5 : Nat) < 10 ∧
    getTrial (some { key := "TRIAL-AAAAA-BBBBB", expiry := 10, created := 0 })
        "TRIAL-CCCCC-DDDDD" 5 =
      (TrialResp.reactivated "TRIAL-AAAAA-BBBBB" 10,
        some { key := "TRIAL-AAAAA-BBBBB", expiry := 10, created := 0 }) :=
  ⟨by decide,
    (oxoke_c7 "TRIAL-CCCCC-DDDDD" 5).2.1
      { key := "TRIAL-AAAAA-BBBBB", expiry := 10, created := 0 } (by decide)⟩

theorem v3Verify_state (h : String → String) (st : List (String × V3Rec))
    (code bid : String) : (v3Verify h st code bid).2 = st := by
  unfold v3Verify
  split
  · rfl
  · split
    · rfl
    · split <;> rfl

theorem v3Verify_status (h : String → String) (st : List (String × V3Rec))
    (code bid : String) : (v3Verify h st code bid).1.status = 200 := by
  unfold v3Verify
  split
  · rfl
  · split
    · rfl
    · split <;> rfl

theorem pcVerify_state (h : String → String) (codes : List (String × PCRec))
    (trials : List (String × TrialRec)) (code pc : String) (now : Nat) :
    (pcVerify h codes trials code pc now).2 = (codes, trials) := by
  unfold pcVerify
  repeat' split
  all_goals rfl

theorem pcVerify_status (h : String → String) (codes : List (String × PCRec))
    (trials : List (String × TrialRec)) (code pc : String) (now : Nat) :
    (pcVerify h codes trials code pc now).1.status = 200 := by
  unfold pcVerify
  repeat' split
  all_goals rfl

/-- C8: Verify never returns an error outcome and never writes the stores,
in both the v3.0 and the PC-locked handlers: the HTTP status is 200 on every
path and the store component of the result is the input store; missing
fields, an unknown code, a disabled code, and an unbound fingerprint each
yield `valid = false` rather than a failure status. -/
theorem oxoke_c8 (h : String → String) (st : List (String × V3Rec))
    (codes : List (String × PCRec)) (trials : List (String × TrialRec))
    (code bid pc : String) (now : Nat) :
    (v3Verify h st code bid).2 = st ∧
    (v3Verify h st code bid).1.status = 200 ∧
    (pcVerify h codes trials code pc now).2 = (codes, trials) ∧
    (pcVerify h codes trials code pc now).1.status = 200 ∧
    (code = "" ∨ bid = "" → (v3Verify h st code bid).1.valid = false) ∧
    (List.lookup (normalizeCode code) st = none → (v3Verify h st code bid).1.valid = false) ∧
    (∀ cd : V3Rec, List.lookup (normalizeCode code) st = some cd → cd.active = false →
        (v3Verify h st code bid).1.valid = false) ∧
    (∀ cd : V3Rec, List.lookup (normalizeCode code) st = some cd →
        (cd.browsers.map migrateV3).any (entryMatches (h bid)) = false →
        (v3Verify h st code bid).1.valid = false) ∧
    (code = "" ∨ pc = "" → (pcVerify h codes trials code pc now).1.valid = false) ∧
    (hasTrialForm (normalizeCode code) = false →
        List.lookup (normalizeCode code) codes = none →
        (pcVerify h codes trials code pc now).1.valid = false) ∧
    (∀ cd : PCRec, hasTrialForm (normalizeCode code) = false →
        List.lookup (normalizeCode code) codes = some cd → cd.active = false →
        (pcVerify h codes trials code pc now).1.valid = false) ∧
    (∀ cd : PCRec, hasTrialForm (normalizeCode code) = false →
        List.lookup (normalizeCode code) codes = some cd →
        (cd.locked_pc == some (h pc)) = false →
        (pcVerify h codes trials code pc now).1.valid = false) ∧
    (hasTrialForm (normalizeCode code) = true → List.lookup (h pc) trials = none →
        (pcVerify h codes trials code pc now).1.valid = false) := by
  refine ⟨v3Verify_state h st code bid, v3Verify_status h st code bid,
    pcVerify_state h codes trials code pc now, pcVerify_status h codes trials code pc now,
    ?_, ?_, ?_, ?_, ?_, ?_, ?_, ?_, ?_⟩
  · intro hg
    simp [v3Verify, hg]
  · intro hl
    by_cases hg : code = "" ∨ bid = ""
    · simp [v3Verify, hg]
    · simp [v3Verify, hg, hl]
  · intro cd hl ha
    by_cases hg : code = "" ∨ bid = ""
    · simp [v3Verify, hg]
    · simp [v3Verify, hg, hl, ha]
  · intro cd hl hmem
    by_cases hg : code = "" ∨ bid = ""
    · simp [v3Verify, hg]
    · by_cases ha : cd.active = false
      · simp [v3Verify, hg, hl, ha]
      · simp [v3Verify, hg, hl, ha, hmem]
  · intro hg
    simp [pcVerify, hg]
  · intro htf hl
    by_cases hg : code = "" ∨ pc = ""
    · simp [pcVerify, hg]
    · simp [pcVerify, hg, htf, hl]
  · intro cd htf hl ha
    by_cases hg : code = "" ∨ pc = ""
    · simp [pcVerify, hg]
    · simp [pcVerify, hg, htf, hl, ha]
  · intro cd htf hl hlp
    by_cases hg : code = "" ∨ pc = ""
    · simp [pcVerify, hg]
    · by_cases ha : cd.active = false
      · simp [pcVerify, hg, htf, hl, ha]
      · simp [pcVerify, hg, htf, hl, ha, hlp]
  · intro htf hl
    by_cases hg : code = "" ∨ pc = ""
    · simp [pcVerify, hg]
    · simp [pcVerify, hg, htf, hl]

/-- Witness for `oxoke_c8`: an unknown code against an empty store verifies
to `valid = false` (and not to an error status). -/
theorem oxoke_c8_witness :
    List.lookup (normalizeCode "ABC1") ([] : List (String × V3Rec)) = none ∧
    (v3Verify (fun s => s) [] "ABC1" "dev").1.valid = false :=
  ⟨by decide,
    (oxoke_c8 (fun s => s) [] [] [] "ABC1" "dev" "pc" 0).2.2.2.2.2.1 (by decide)⟩

/-- C9: on present records, DisableCode sets `active := false` and changes
nothing else (bindings survive), and the reset operations clear the bound
browsers (capacity modality) or the PC lock, expiry and activation stamp
(exclusive modality) while leaving `active` exactly as it was — so neither
operation ever turns `active` from `false` back to `true`. -/
theorem oxoke_c9 :
    (∀ cd : V3Rec, v3DisableCode (some cd) = (AdminResp.ok, some { cd with active := false })) ∧
    (∀ cd : V3Rec, v3ResetBrowsers (some cd) = (AdminResp.ok, some { cd with browsers := [] })) ∧
    (∀ cd : PCRec, pcDisableCode (some cd) = (AdminResp.ok, some { cd with active := false })) ∧
    (∀ cd : PCRec, pcResetCode (some cd) =
        (AdminResp.ok, some { cd with locked_pc := none, expiry := none,
                                      activated_at := none })) ∧
    (∀ cd : V3Rec, ((v3DisableCode (some cd)).2.map V3Rec.active) = some false) ∧
    (∀ cd : V3Rec, ((v3ResetBrowsers (some cd)).2.map V3Rec.active) = some cd.active) ∧
    (∀ cd : PCRec, ((pcDisableCode (some cd)).2.map PCRec.active) = some false) ∧
    (∀ cd : PCRec, ((pcResetCode (some cd)).2.map PCRec.active) = some cd.active) :=
  ⟨fun _ => rfl, fun _ => rfl, fun _ => rfl, fun _ => rfl,
    fun _ => rfl, fun _ => rfl, fun _ => rfl, fun _ => rfl⟩

/-- C10: whenever the PC-locked Verify is called with a code whose
normalized form has the trial-key shape and answers `valid = true`, a
TrialRecord is stored under the caller's hashed PC fingerprint, its stored
key is character-for-character equal to the normalized presented code, and
its expiry is strictly in the future; in particular a trial key stored under
a different device's fingerprint never validates, since the single record
consulted is the one at the caller's own hash. -/
theorem oxoke_c10 (h : String → String) (codes : List (String × PCRec))
    (trials : List (String × TrialRec)) (code pc : String) (now : Nat)
    (htr : hasTrialForm (normalizeCode code) = true)
    (hv : (pcVerify h codes trials code pc now).1.valid = true) :
    ∃ e, List.lookup (h pc) trials = some e ∧ e.key = normalizeCode code ∧ now < e.expiry := by
  by_cases hg : code = "" ∨ pc = ""
  · simp [pcVerify, hg] at hv
  · simp only [pcVerify, if_neg hg, htr, if_true] at hv
    cases hl : List.lookup (h pc) trials with
    | none => rw [hl] at hv; simp at hv
    | some e =>
      rw [hl] at hv
      by_cases hk : e.key = normalizeCode code
      · refine ⟨e, rfl, hk, ?_⟩
        simp [hk] at hv
        exact hv
      · simp [hk] at hv

/-- Witness for `oxoke_c10`: a trial key stored for PC `"PC1"` validates for
that PC, and the theorem recovers the stored record behind the answer. -/
theorem oxoke_c10_witness :
    hasTrialForm (normalizeCode "trial-aaaaa-bbbbb") = true ∧
    (pcVerify (fun s => s) []
        [("PC1", { key := "TRIAL-AAAAA-BBBBB", expiry := 2000, created := 0 })]
        "trial-aaaaa-bbbbb" "PC1" 100).1.valid = true ∧
    ∃ e, List.lookup ((fun s : String => s) "PC1")
          [("PC1", ({ key := "TRIAL-AAAAA-BBBBB", expiry := 2000,
                      created := 0 } : TrialRec))] = some e ∧
        e.key = normalizeCode "trial-aaaaa-bbbbb" ∧ 100 < e.expiry :=
  ⟨by decide, by decide,
    oxoke_c10 (fun s => s) []
      [("PC1", { key := "TRIAL-AAAAA-BBBBB", expiry := 2000, created := 0 })]
      "trial-aaaaa-bbbbb" "PC1" 100 (by decide) (by decide)⟩
